import Mathlib

/-
Verification development for `ceilometer/compute/notifications/instance.py`:
converters that turn compute notification messages into metering samples.

The embedding models Python's semi-structured data as a JSON-like `Value`
type; Python dicts become association lists (key order preserved, keys
unique in any dict built by Python).  Subscripting a missing key raises
`KeyError`, modelled as `PyErr.missingField`; subscripting or calling
`.get` on a non-mapping raises `TypeError`/`AttributeError`, both modelled
as `PyErr.typeError`.  Generator-based sample derivation is materialised
eagerly into `Except PyErr (List Sample)`; in-place mutation of the message
by `process_notification` is modelled by returning the updated message.
-/

namespace PankoNotif

/-- A Python value as it occurs in notification payloads. -/
inductive Value where
  | vnull : Value
  | bool (b : Bool) : Value
  | int (n : Int) : Value
  | str (s : String) : Value
  | list (xs : List Value) : Value
  | dict (es : List (String × Value)) : Value

/-- Failures raised by the translated code: `missingField k` is Python's
`KeyError(k)`; `typeError k` stands for the `TypeError`/`AttributeError`
raised when subscripting or `.get`-ing a non-mapping at key `k`, and for
iterating a non-list. -/
inductive PyErr where
  | missingField (key : String)
  | typeError (key : String)

/-- Lookup of a key in a dict's entry list (first occurrence; Python dicts
have unique keys). -/
def lookupKey : List (String × Value) → String → Option Value
  | [], _ => none
  | (k, v) :: rest, j => if k = j then some v else lookupKey rest j

/-- Python `del d[j]`: remove the key from the entry list. -/
def eraseKey : List (String × Value) → String → List (String × Value)
  | [], _ => []
  | (k, v) :: rest, j =>
    if k = j then eraseKey rest j else (k, v) :: eraseKey rest j

/-- Python `d[j] = v`: overwrite the value at an existing key in place,
else append a new entry. -/
def setKey : List (String × Value) → String → Value → List (String × Value)
  | [], j, v => [(j, v)]
  | (k, w) :: rest, j, v =>
    if k = j then (k, v) :: rest else (k, w) :: setKey rest j v

/-- Python `m[j]` on a value: `KeyError` when the key is absent,
`TypeError` when `m` is not a mapping. -/
def index (v : Value) (j : String) : Except PyErr Value :=
  match v with
  | .dict es =>
    match lookupKey es j with
    | some x => .ok x
    | none => .error (.missingField j)
  | _ => .error (.typeError j)

/-- Python `m.get(j, dflt)`: default on a missing key, `AttributeError`
(modelled as `typeError`) when `m` is not a mapping. -/
def dictGet (v : Value) (j : String) (dflt : Value) : Except PyErr Value :=
  match v with
  | .dict es => .ok ((lookupKey es j).getD dflt)
  | _ => .error (.typeError j)

/-- Python truthiness, as used by `if instance_type:`. -/
def truthy : Value → Bool
  | .vnull => false
  | .bool b => b
  | .int n => n != 0
  | .str s => s != ""
  | .list xs => !xs.isEmpty
  | .dict es => !es.isEmpty

/-- Python `'%s' % v` string conversion.  Exact for strings (the only case
any claim exercises, via `'instance:%s' % instance_type`); container and
`None` renderings are abbreviated since nothing depends on them. -/
def pyStr : Value → String
  | .vnull => "None"
  | .bool b => if b then "True" else "False"
  | .int n => toString n
  | .str s => s
  | .list _ => "[...]"
  | .dict _ => "\x7b...\x7d"

/-- Modelled from the spec: `ceilometer/sample.py` is not under `src/`.
The spec (§3) enumerates the sample type as GAUGE | DELTA | CUMULATIVE; the
source refers to `sample.TYPE_GAUGE` / `sample.TYPE_DELTA`.  They are
modelled as distinguished string values, and `InstanceDelete` passes a
type taken verbatim from the payload. -/
def TYPE_GAUGE : Value := .str "gauge"

/-- Modelled from the spec: see `TYPE_GAUGE`. -/
def TYPE_DELTA : Value := .str "delta"

/-- Modelled from the spec: `sample.Sample.from_notification` is not under
`src/`.  Per §3/§6 the external Sample constructor accepts
name/type/unit/volume/user_id/project_id/resource_id plus a back-reference
to the originating message, and this core only assembles those field
values; the sample is modelled as the record of the assembled fields. -/
structure Sample where
  name : Value
  type : Value
  unit : Value
  volume : Value
  user_id : Value
  project_id : Value
  resource_id : Value
  message : Value

/-- Modelled from the spec: `ceilometer/compute/util.py` is not under
`src/`.  §4.1 says sanitisation re-keys user metadata under a reserved
prefix; the spec leaves the literal prefix unspecified, so the model fixes
it to the string "user_metadata.". -/
def RESERVED_PREFIX : String := "user_metadata."

/-- Modelled from the spec: `util.add_reserved_user_metadata` is not under
`src/`.  §4.1: "for every key in rawMetadata, writes
target[RESERVED_PREFIX + key] = rawMetadata[key]"; colliding keys in the
target are overwritten (last-write-wins); rawMetadata is not mutated. -/
def add_reserved_user_metadata (src : List (String × Value))
    (target : List (String × Value)) : List (String × Value) :=
  src.foldl (fun t kv => setKey t (RESERVED_PREFIX ++ kv.1) kv.2) target

/-- The concrete converter variants defined in `instance.py`. -/
inductive Variant where
  | instanceScheduled
  | instanceLifecycle
  | memory
  | vcpus
  | rootDiskSize
  | ephemeralDiskSize
  | instanceFlavor
  | instanceDelete

/-- The `event_types` glob patterns each variant declares (used only by the
external dispatcher). -/
def event_types : Variant → List String
  | .instanceScheduled => ["scheduler.run_instance.scheduled"]
  | .instanceDelete => ["compute.instance.delete.samples"]
  | _ => ["compute.instance.*"]

/-- The key path at which `get_instance_properties` finds the instance
properties: the default implementation returns `message['payload']`;
`InstanceScheduled` overrides it with
`message['payload']['request_spec']['instance_properties']`. -/
def propsPath : Variant → List String
  | .instanceScheduled => ["payload", "request_spec", "instance_properties"]
  | _ => ["payload"]

/-- Chained subscripting `m[k1][k2]...` along a key path. -/
def getPath : Value → List String → Except PyErr Value
  | v, [] => .ok v
  | v, j :: rest =>
    match index v j with
    | .ok w => getPath w rest
    | .error e => .error e

/-- Replace the value at a key path (models that the mapping returned by
`get_instance_properties` aliases into the message, so mutating it mutates
the message at that path).  Where the path does not resolve the message is
left unchanged; the pipeline only reaches this after `getPath` succeeded. -/
def setPath : Value → List String → Value → Value
  | _, [], w => w
  | .dict es, j :: rest, w =>
    match lookupKey es j with
    | some old => .dict (setKey es j (setPath old rest w))
    | none => .dict es
  | v, _ :: _, _ => v

/-- `get_instance_properties` of the converter base (or its
`InstanceScheduled` override). -/
def get_instance_properties (var : Variant) (m : Value) : Except PyErr Value :=
  getPath m (propsPath var)

/-- The metadata-sanitisation step of `process_notification`:
`if isinstance(instance_properties.get('metadata'), dict):` remove the
`metadata` key and merge it via `add_reserved_user_metadata`.  On a
non-mapping `instance_properties` the `.get` call itself raises. -/
def sanitize_instance_properties : Value → Except PyErr Value
  | .dict es =>
    match lookupKey es "metadata" with
    | some (.dict md) =>
      .ok (.dict (add_reserved_user_metadata md (eraseKey es "metadata")))
    | _ => .ok (.dict es)
  | _ => .error (.typeError "metadata")

/-- The message-state transformation performed by `process_notification`
before it delegates to `get_sample`: locate the instance properties and
sanitise their embedded metadata in place. -/
def sanitize_message (var : Variant) (m : Value) : Except PyErr Value :=
  match get_instance_properties var m with
  | .ok props =>
    match sanitize_instance_properties props with
    | .ok props2 => .ok (setPath m (propsPath var) props2)
    | .error e => .error e
  | .error e => .error e

/-- `message['payload'][k]`, the field-lookup pattern shared by the
lifecycle extractors. -/
def payloadField (m : Value) (k : String) : Except PyErr Value :=
  match index m "payload" with
  | .ok p => index p k
  | .error e => .error e

/-- `InstanceScheduled.get_sample`: one DELTA sample, `user_id` None,
`project_id` from the nested instance properties, `resource_id` from the
top-level payload. -/
def instanceScheduled_get_sample (m : Value) : Except PyErr (List Sample) := do
  let p ← getPath m ["payload", "request_spec", "instance_properties", "project_id"]
  let r ← payloadField m "instance_id"
  .ok [⟨.str "instance.scheduled", TYPE_DELTA, .str "instance", .int 1,
        .vnull, p, r, m⟩]

/-- `Instance.get_sample`: one GAUGE heartbeat sample of volume 1. -/
def instanceLifecycle_get_sample (m : Value) : Except PyErr (List Sample) := do
  let u ← payloadField m "user_id"
  let p ← payloadField m "tenant_id"
  let r ← payloadField m "instance_id"
  .ok [⟨.str "instance", TYPE_GAUGE, .str "instance", .int 1, u, p, r, m⟩]

/-- `Memory.get_sample`: volume from `payload.memory_mb` (evaluated before
the id fields, matching keyword-argument order in the source). -/
def memory_get_sample (m : Value) : Except PyErr (List Sample) := do
  let vol ← payloadField m "memory_mb"
  let u ← payloadField m "user_id"
  let p ← payloadField m "tenant_id"
  let r ← payloadField m "instance_id"
  .ok [⟨.str "memory", TYPE_GAUGE, .str "MB", vol, u, p, r, m⟩]

/-- `VCpus.get_sample`: volume from `payload.vcpus`. -/
def vcpus_get_sample (m : Value) : Except PyErr (List Sample) := do
  let vol ← payloadField m "vcpus"
  let u ← payloadField m "user_id"
  let p ← payloadField m "tenant_id"
  let r ← payloadField m "instance_id"
  .ok [⟨.str "vcpus", TYPE_GAUGE, .str "vcpu", vol, u, p, r, m⟩]

/-- `RootDiskSize.get_sample`: volume from `payload.root_gb`. -/
def rootDiskSize_get_sample (m : Value) : Except PyErr (List Sample) := do
  let vol ← payloadField m "root_gb"
  let u ← payloadField m "user_id"
  let p ← payloadField m "tenant_id"
  let r ← payloadField m "instance_id"
  .ok [⟨.str "disk.root.size", TYPE_GAUGE, .str "GB", vol, u, p, r, m⟩]

/-- `EphemeralDiskSize.get_sample`: volume from `payload.ephemeral_gb`. -/
def ephemeralDiskSize_get_sample (m : Value) : Except PyErr (List Sample) := do
  let vol ← payloadField m "ephemeral_gb"
  let u ← payloadField m "user_id"
  let p ← payloadField m "tenant_id"
  let r ← payloadField m "instance_id"
  .ok [⟨.str "disk.ephemeral.size", TYPE_GAUGE, .str "GB", vol, u, p, r, m⟩]

/-- `InstanceFlavor.get_sample`: `message.get('payload', {}).get('instance_type')`,
then a single interpolated-name GAUGE sample only when that value is
truthy. -/
def instanceFlavor_get_sample (m : Value) : Except PyErr (List Sample) := do
  let payload0 ← dictGet m "payload" (.dict [])
  let instance_type ← dictGet payload0 "instance_type" .vnull
  if truthy instance_type then do
    let u ← payloadField m "user_id"
    let p ← payloadField m "tenant_id"
    let r ← payloadField m "instance_id"
    .ok [⟨.str ("instance:" ++ pyStr instance_type), TYPE_GAUGE,
          .str "instance", .int 1, u, p, r, m⟩]
  else
    .ok []

/-- The body of `InstanceDelete.get_sample`'s `for s in ...` loop: per
entry, the sample fields are read from the entry and the three id fields
from the top-level payload, in keyword-argument order. -/
def instanceDelete_loop (m payload : Value) :
    List Value → Except PyErr (List Sample)
  | [] => .ok []
  | s :: rest => do
    let n ← index s "name"
    let ty ← index s "type"
    let un ← index s "unit"
    let vo ← index s "volume"
    let u ← index payload "user_id"
    let p ← index payload "tenant_id"
    let r ← index payload "instance_id"
    let tail ← instanceDelete_loop m payload rest
    .ok (⟨n, ty, un, vo, u, p, r, m⟩ :: tail)

/-- `InstanceDelete.get_sample`: iterate
`message['payload'].get('samples', [])`.  Iterating a non-list value is
modelled as a type error. -/
def instanceDelete_get_sample (m : Value) : Except PyErr (List Sample) := do
  let payload ← index m "payload"
  let entries ← dictGet payload "samples" (.list [])
  match entries with
  | .list xs => instanceDelete_loop m payload xs
  | _ => .error (.typeError "samples")

/-- Dispatch to each variant's `get_sample`. -/
def get_sample : Variant → Value → Except PyErr (List Sample)
  | .instanceScheduled, m => instanceScheduled_get_sample m
  | .instanceLifecycle, m => instanceLifecycle_get_sample m
  | .memory, m => memory_get_sample m
  | .vcpus, m => vcpus_get_sample m
  | .rootDiskSize, m => rootDiskSize_get_sample m
  | .ephemeralDiskSize, m => ephemeralDiskSize_get_sample m
  | .instanceFlavor, m => instanceFlavor_get_sample m
  | .instanceDelete, m => instanceDelete_get_sample m

/-- The shared pipeline `process_notification`: sanitise the message's
instance properties in place, then derive the samples from the (mutated)
message; returns the post-state of the message together with the
eagerly-materialised sample sequence. -/
def process_notification (var : Variant) (m : Value) :
    Except PyErr (Value × List Sample) :=
  match sanitize_message var m with
  | .ok m2 =>
    match get_sample var m2 with
    | .ok samples => .ok (m2, samples)
    | .error e => .error e
  | .error e => .error e

/-- The four per-entry fields `InstanceDelete` reads from a batch entry,
when the entry is a mapping carrying all of them. -/
def entryFields (s : Value) : Option (Value × Value × Value × Value) :=
  match s with
  | .dict es =>
    match lookupKey es "name", lookupKey es "type",
        lookupKey es "unit", lookupKey es "volume" with
    | some n, some ty, some un, some vo => some (n, ty, un, vo)
    | _, _, _, _ => none
  | _ => none

/-- Two key paths diverge when they agree on a proper common prefix and
then differ: a write at one cannot be observed at the other. -/
def diverges : List String → List String → Bool
  | a :: ps, b :: qs => a != b || diverges ps qs
  | _, _ => false

/-- The sample `InstanceDelete` builds from one well-formed batch entry:
name/type/unit/volume verbatim from the entry, the three ids from the
top-level payload (the `none` branch is unreachable for well-formed
entries). -/
def deleteSampleOfEntry (m u t i : Value) (s : Value) : Sample :=
  match entryFields s with
  | some (n, ty, un, vo) => ⟨n, ty, un, vo, u, t, i, m⟩
  | none => ⟨.vnull, .vnull, .vnull, .vnull, u, t, i, m⟩

/- Concrete messages used to witness the claim theorems. -/

/-- A lifecycle message whose payload carries a mapping-valued `metadata`. -/
def witMetaPayload : List (String × Value) :=
  [("user_id", .str "u"), ("tenant_id", .str "t"), ("instance_id", .str "i"),
   ("metadata", .dict [("a", .str "x"), ("b", .int 2)])]

/-- The `metadata` sub-mapping of `witMetaPayload`. -/
def witMeta : List (String × Value) :=
  [("a", .str "x"), ("b", .int 2)]

/-- The message wrapping `witMetaPayload`. -/
def witMetaMsg : Value := .dict [("payload", .dict witMetaPayload)]

/-- The scheduling message of the spec's testable property 5. -/
def witSchedMsg : Value := .dict [("payload", .dict [
  ("request_spec", .dict [("instance_properties", .dict [("project_id", .str "p1")])]),
  ("instance_id", .str "i1")])]

/-- Two pre-formed deletion-batch entries (the second also carries its own
`user_id`, which must be ignored). -/
def witDelEntries : List Value :=
  [.dict [("name", .str "cpu"), ("type", .str "cumulative"),
          ("unit", .str "ns"), ("volume", .int 99)],
   .dict [("name", .str "memory"), ("type", .str "gauge"),
          ("unit", .str "MB"), ("volume", .int 512), ("user_id", .str "other")]]

/-- A deletion-batch payload embedding `witDelEntries`. -/
def witDelPayload : List (String × Value) :=
  [("samples", .list witDelEntries),
   ("user_id", .str "u"), ("tenant_id", .str "t"), ("instance_id", .str "i")]

/-- The message wrapping `witDelPayload`. -/
def witDelMsg : Value := .dict [("payload", .dict witDelPayload)]

/-- A flavor payload as in the spec's testable property 3. -/
def witFlavorPayload : List (String × Value) :=
  [("instance_type", .str "m1.small"), ("user_id", .str "u"),
   ("tenant_id", .str "t"), ("instance_id", .str "i")]

/-- The message wrapping `witFlavorPayload`. -/
def witFlavorMsg : Value := .dict [("payload", .dict witFlavorPayload)]

/-- `witMetaPayload` after sanitisation: `metadata` removed, its keys
re-prefixed. -/
def witMetaSanitizedPayload : List (String × Value) :=
  [("user_id", .str "u"), ("tenant_id", .str "t"), ("instance_id", .str "i"),
   ("user_metadata.a", .str "x"), ("user_metadata.b", .int 2)]

/-- `witMetaMsg` after sanitisation. -/
def witMetaMsg2 : Value := .dict [("payload", .dict witMetaSanitizedPayload)]

/-- The samples the `Instance` lifecycle variant derives from
`witMetaMsg2`. -/
def witMetaSamples : List Sample :=
  [⟨.str "instance", TYPE_GAUGE, .str "instance", .int 1,
    .str "u", .str "t", .str "i", witMetaMsg2⟩]

/-- A deletion message with an explicitly empty batch. -/
def witDelEmptyMsg : Value :=
  .dict [("payload", .dict [("samples", .list [])])]

/-- A payload whose `metadata` is present but list-valued (malformed). -/
def witBadMetaPayload : List (String × Value) :=
  [("user_id", .str "u"), ("metadata", .list [.str "x"])]

/-- The message wrapping `witBadMetaPayload`. -/
def witBadMetaMsg : Value := .dict [("payload", .dict witBadMetaPayload)]

/-- A lifecycle message whose payload lacks `user_id` (but carries
metadata, so sanitisation does run). -/
def witNoUserMsg : Value :=
  .dict [("payload", .dict [("tenant_id", .str "t"),
    ("metadata", .dict [("a", .str "x")])])]

end PankoNotif

namespace PankoNotif

/- Association-list lemmas. -/

theorem lookupKey_setKey (es : List (String × Value)) (j k : String) (v : Value) :
    lookupKey (setKey es j v) k = if j = k then some v else lookupKey es k := by
  induction es with
  | nil => simp [setKey, lookupKey]
  | cons kv rest ih =>
    obtain ⟨k0, w⟩ := kv
    by_cases h0 : k0 = j
    · subst h0
      by_cases hk : k0 = k <;> simp [setKey, lookupKey, hk]
    · have h0' : j ≠ k0 := fun h => h0 h.symm
      by_cases hk : k0 = k
      · subst hk
        simp [setKey, lookupKey, h0, h0']
      · simp [setKey, lookupKey, h0, hk, ih]

theorem lookupKey_eraseKey (es : List (String × Value)) (j k : String) :
    lookupKey (eraseKey es j) k = if j = k then none else lookupKey es k := by
  induction es with
  | nil => simp [eraseKey, lookupKey]
  | cons kv rest ih =>
    obtain ⟨k0, w⟩ := kv
    by_cases h0 : k0 = j
    · subst h0
      by_cases hk : k0 = k
      · subst hk
        simp [eraseKey, lookupKey, ih]
      · simp [eraseKey, lookupKey, hk, ih]
    · by_cases hk : k0 = k
      · subst hk
        have hk0 : j ≠ k0 := fun h => h0 h.symm
        simp [eraseKey, lookupKey, h0, hk0]
      · simp [eraseKey, lookupKey, h0, hk, ih]

theorem setKey_self (es : List (String × Value)) (j : String) (v : Value)
    (h : lookupKey es j = some v) : setKey es j v = es := by
  induction es with
  | nil => simp [lookupKey] at h
  | cons kv rest ih =>
    obtain ⟨k0, w⟩ := kv
    by_cases h0 : k0 = j
    · simp [lookupKey, h0] at h
      simp [setKey, h0, h]
    · simp [lookupKey, h0] at h
      simp [setKey, h0, ih h]

end PankoNotif

namespace PankoNotif

/- String lemmas about the reserved prefix. -/

theorem reserved_append_inj (a b : String)
    (h : RESERVED_PREFIX ++ a = RESERVED_PREFIX ++ b) : a = b := by
  have hd := congrArg String.data h
  simp only [String.data_append] at hd
  exact String.ext (List.append_cancel_left hd)

theorem ne_reserved_append_of_length_lt (j s : String)
    (h : j.length < RESERVED_PREFIX.length) : j ≠ RESERVED_PREFIX ++ s := by
  intro he
  have hl := congrArg String.length he
  rw [String.length_append] at hl
  omega

theorem metadata_ne_reserved_append (s : String) :
    "metadata" ≠ RESERVED_PREFIX ++ s :=
  ne_reserved_append_of_length_lt _ _ (by decide)

theorem user_id_ne_reserved_append (s : String) :
    "user_id" ≠ RESERVED_PREFIX ++ s :=
  ne_reserved_append_of_length_lt _ _ (by decide)

/- Lemmas about the reserved-metadata merge. -/

theorem add_reserved_cons (kv : String × Value) (rest t : List (String × Value)) :
    add_reserved_user_metadata (kv :: rest) t =
      add_reserved_user_metadata rest (setKey t (RESERVED_PREFIX ++ kv.1) kv.2) := rfl

theorem lookupKey_add_reserved_of_ne (md t : List (String × Value)) (j : String)
    (h : ∀ kv ∈ md, j ≠ RESERVED_PREFIX ++ kv.1) :
    lookupKey (add_reserved_user_metadata md t) j = lookupKey t j := by
  induction md generalizing t with
  | nil => rfl
  | cons kv rest ih =>
    rw [add_reserved_cons, ih _ (fun kv2 h2 => h kv2 (List.mem_cons_of_mem _ h2)),
      lookupKey_setKey]
    have hne : ¬(RESERVED_PREFIX ++ kv.1 = j) :=
      fun he => h kv (List.mem_cons_self _ _) he.symm
    simp [hne]

theorem lookupKey_add_reserved_mem (md t : List (String × Value)) (k : String)
    (v : Value) (hnd : (md.map Prod.fst).Nodup) (h : lookupKey md k = some v) :
    lookupKey (add_reserved_user_metadata md t) (RESERVED_PREFIX ++ k) = some v := by
  induction md generalizing t with
  | nil => simp [lookupKey] at h
  | cons kv rest ih =>
    obtain ⟨k0, v0⟩ := kv
    simp only [List.map_cons, List.nodup_cons] at hnd
    obtain ⟨hk0, hndrest⟩ := hnd
    by_cases he : k0 = k
    · subst he
      simp [lookupKey] at h
      have hne : ∀ kv2 ∈ rest, RESERVED_PREFIX ++ k0 ≠ RESERVED_PREFIX ++ kv2.1 := by
        intro kv2 h2 hcontra
        exact hk0 (reserved_append_inj _ _ hcontra ▸ List.mem_map_of_mem Prod.fst h2)
      rw [add_reserved_cons, lookupKey_add_reserved_of_ne _ _ _ hne, lookupKey_setKey]
      simp [h]
    · simp only [lookupKey, if_neg he] at h
      rw [add_reserved_cons]
      exact ih _ hndrest h

end PankoNotif

namespace PankoNotif

/- Path lemmas: reading and writing at a key path. -/

theorem getPath_setPath_self (p : List String) (m w v : Value)
    (h : getPath m p = .ok v) : getPath (setPath m p w) p = .ok w := by
  induction p generalizing m v with
  | nil => simp [setPath, getPath]
  | cons j rest ih =>
    cases m with
    | dict es =>
      cases hl : lookupKey es j with
      | none => simp [getPath, index, hl] at h
      | some old =>
        simp only [getPath, index, hl] at h
        simp [setPath, hl, getPath, index, lookupKey_setKey, ih old v h]
    | vnull => simp [getPath, index] at h
    | bool b => simp [getPath, index] at h
    | int n => simp [getPath, index] at h
    | str s => simp [getPath, index] at h
    | list xs => simp [getPath, index] at h

theorem setPath_getPath_id (p : List String) (m v : Value)
    (h : getPath m p = .ok v) : setPath m p v = m := by
  induction p generalizing m v with
  | nil =>
    simp only [getPath, Except.ok.injEq] at h
    simp [setPath, h]
  | cons j rest ih =>
    cases m with
    | dict es =>
      cases hl : lookupKey es j with
      | none => simp [getPath, index, hl] at h
      | some old =>
        simp only [getPath, index, hl] at h
        simp only [setPath, hl, ih old v h, setKey_self es j old hl]
    | vnull => simp [getPath, index] at h
    | bool b => simp [getPath, index] at h
    | int n => simp [getPath, index] at h
    | str s => simp [getPath, index] at h
    | list xs => simp [getPath, index] at h

theorem getPath_setPath_diverges (p q : List String) (m w : Value)
    (h : diverges p q = true) : getPath (setPath m p w) q = getPath m q := by
  induction p generalizing q m with
  | nil => simp [diverges] at h
  | cons a ps ih =>
    cases q with
    | nil => simp [diverges] at h
    | cons b qs =>
      simp only [diverges, Bool.or_eq_true, bne_iff_ne, ne_eq] at h
      cases m with
      | dict es =>
        cases hl : lookupKey es a with
        | none => simp [setPath, hl]
        | some old =>
          by_cases hab : a = b
          · subst hab
            rcases h with h | h
            · exact absurd rfl h
            · simp [setPath, hl, getPath, index, lookupKey_setKey, ih qs old h]
          · simp [setPath, hl, getPath, index, lookupKey_setKey, hab]
      | vnull => simp [setPath]
      | bool b2 => simp [setPath]
      | int n => simp [setPath]
      | str s => simp [setPath]
      | list xs => simp [setPath]

/- Sanitisation lemmas. -/

theorem sanitize_dict_ok (es : List (String × Value)) :
    ∃ es2, sanitize_instance_properties (.dict es) = .ok (.dict es2) := by
  cases hm : lookupKey es "metadata" with
  | none => exact ⟨es, by simp [sanitize_instance_properties, hm]⟩
  | some v =>
    cases v with
    | dict md =>
      exact ⟨add_reserved_user_metadata md (eraseKey es "metadata"),
        by simp [sanitize_instance_properties, hm]⟩
    | vnull => exact ⟨es, by simp [sanitize_instance_properties, hm]⟩
    | bool b => exact ⟨es, by simp [sanitize_instance_properties, hm]⟩
    | int n => exact ⟨es, by simp [sanitize_instance_properties, hm]⟩
    | str s => exact ⟨es, by simp [sanitize_instance_properties, hm]⟩
    | list xs => exact ⟨es, by simp [sanitize_instance_properties, hm]⟩

theorem lookupKey_sanitize_short (es es2 : List (String × Value)) (j : String)
    (h : sanitize_instance_properties (.dict es) = .ok (.dict es2))
    (hj : ∀ s, j ≠ RESERVED_PREFIX ++ s) (hjm : j ≠ "metadata") :
    lookupKey es2 j = lookupKey es j := by
  cases hm : lookupKey es "metadata" with
  | none =>
    simp only [sanitize_instance_properties, hm, Except.ok.injEq,
      Value.dict.injEq] at h
    rw [h]
  | some v =>
    cases v with
    | dict md =>
      simp only [sanitize_instance_properties, hm, Except.ok.injEq,
        Value.dict.injEq] at h
      rw [← h, lookupKey_add_reserved_of_ne _ _ _ (fun kv _ => hj kv.1),
        lookupKey_eraseKey]
      have hmj : ¬("metadata" = j) := fun he => hjm he.symm
      simp [hmj]
    | vnull =>
      simp only [sanitize_instance_properties, hm, Except.ok.injEq,
        Value.dict.injEq] at h
      rw [h]
    | bool b =>
      simp only [sanitize_instance_properties, hm, Except.ok.injEq,
        Value.dict.injEq] at h
      rw [h]
    | int n =>
      simp only [sanitize_instance_properties, hm, Except.ok.injEq,
        Value.dict.injEq] at h
      rw [h]
    | str s =>
      simp only [sanitize_instance_properties, hm, Except.ok.injEq,
        Value.dict.injEq] at h
      rw [h]
    | list xs =>
      simp only [sanitize_instance_properties, hm, Except.ok.injEq,
        Value.dict.injEq] at h
      rw [h]

theorem sanitize_message_eq (var : Variant) (m props props2 : Value)
    (h1 : getPath m (propsPath var) = .ok props)
    (h2 : sanitize_instance_properties props = .ok props2) :
    sanitize_message var m = .ok (setPath m (propsPath var) props2) := by
  simp [sanitize_message, get_instance_properties, h1, h2]

end PankoNotif

namespace PankoNotif

/- Monadic reduction helpers for `Except`. -/

theorem ebind_ok {α β : Type} (a : α) (f : α → Except PyErr β) :
    (Except.ok a >>= f) = f a := rfl

theorem ebind_error {α β : Type} (e : PyErr) (f : α → Except PyErr β) :
    ((Except.error e : Except PyErr α) >>= f) = .error e := rfl

/- Field-lookup helpers. -/

theorem payloadField_eq (mes pes : List (String × Value)) (k : String)
    (hp : lookupKey mes "payload" = some (.dict pes)) :
    payloadField (.dict mes) k = index (.dict pes) k := by
  simp [payloadField, index, hp]

theorem entryFields_spec (s n ty un vo : Value)
    (h : entryFields s = some (n, ty, un, vo)) :
    index s "name" = .ok n ∧ index s "type" = .ok ty ∧
    index s "unit" = .ok un ∧ index s "volume" = .ok vo := by
  cases s with
  | dict es =>
    cases hn : lookupKey es "name" with
    | none => simp [entryFields, hn] at h
    | some n2 =>
      cases hty : lookupKey es "type" with
      | none => simp [entryFields, hn, hty] at h
      | some ty2 =>
        cases hun : lookupKey es "unit" with
        | none => simp [entryFields, hn, hty, hun] at h
        | some un2 =>
          cases hvo : lookupKey es "volume" with
          | none => simp [entryFields, hn, hty, hun, hvo] at h
          | some vo2 =>
            simp only [entryFields, hn, hty, hun, hvo, Option.some.injEq,
              Prod.mk.injEq] at h
            obtain ⟨e1, e2, e3, e4⟩ := h
            subst e1; subst e2; subst e3; subst e4
            simp [index, hn, hty, hun, hvo]
  | vnull => simp [entryFields] at h
  | bool b => simp [entryFields] at h
  | int n2 => simp [entryFields] at h
  | str s2 => simp [entryFields] at h
  | list xs => simp [entryFields] at h

theorem instanceDelete_loop_eq_map (m : Value) (pes : List (String × Value))
    (u t i : Value) (hu : lookupKey pes "user_id" = some u)
    (ht : lookupKey pes "tenant_id" = some t)
    (hi : lookupKey pes "instance_id" = some i) (ss : List Value)
    (hwf : ∀ s ∈ ss, (entryFields s).isSome) :
    instanceDelete_loop m (.dict pes) ss =
      .ok (ss.map (deleteSampleOfEntry m u t i)) := by
  induction ss with
  | nil => rfl
  | cons s rest ih =>
    have hs := hwf s (List.mem_cons_self _ _)
    obtain ⟨⟨n, ty, un, vo⟩, hfe⟩ := Option.isSome_iff_exists.mp hs
    obtain ⟨hn, hty, hun, hvo⟩ := entryFields_spec s n ty un vo hfe
    have hrest := ih (fun s2 h2 => hwf s2 (List.mem_cons_of_mem _ h2))
    simp only [instanceDelete_loop, hn, hty, hun, hvo, ebind_ok]
    simp only [index, hu, ht, hi, ebind_ok, hrest]
    simp [List.map_cons, deleteSampleOfEntry, hfe]

end PankoNotif

namespace PankoNotif

/-- C1: for every message whose instance properties (at the variant's
properties path) hold a mapping-valued `metadata` key, after the shared
pipeline step `process_notification` runs its sanitisation (the
message-state transformation `sanitize_message`; the subsequent derivation
never alters the message), the `metadata` key is absent from the instance
properties and every key `k` of the original metadata mapping appears
there as `RESERVED_PREFIX ++ k` with the identical value. -/
theorem C1_metadata_merged (var : Variant) (m : Value)
    (es md : List (String × Value))
    (hprops : getPath m (propsPath var) = .ok (.dict es))
    (hmd : lookupKey es "metadata" = some (.dict md))
    (hnd : (md.map Prod.fst).Nodup) :
    ∃ es2, sanitize_message var m = .ok (setPath m (propsPath var) (.dict es2)) ∧
      getPath (setPath m (propsPath var) (.dict es2)) (propsPath var) =
        .ok (.dict es2) ∧
      lookupKey es2 "metadata" = none ∧
      ∀ k v, lookupKey md k = some v →
        lookupKey es2 (RESERVED_PREFIX ++ k) = some v := by
  refine ⟨add_reserved_user_metadata md (eraseKey es "metadata"), ?_, ?_, ?_, ?_⟩
  · exact sanitize_message_eq var m _ _ hprops
      (by simp [sanitize_instance_properties, hmd])
  · exact getPath_setPath_self _ _ _ _ hprops
  · rw [lookupKey_add_reserved_of_ne _ _ _
        (fun kv _ => metadata_ne_reserved_append kv.1), lookupKey_eraseKey]
    simp
  · intro k v hkv
    exact lookupKey_add_reserved_mem md _ k v hnd hkv

/-- Witness for C1: the lifecycle message `witMetaMsg`, whose metadata is
the two-entry mapping `witMeta`. -/
theorem C1_metadata_merged_witness :
    ∃ es2, sanitize_message .instanceLifecycle witMetaMsg =
        .ok (setPath witMetaMsg (propsPath .instanceLifecycle) (.dict es2)) ∧
      getPath (setPath witMetaMsg (propsPath .instanceLifecycle) (.dict es2))
        (propsPath .instanceLifecycle) = .ok (.dict es2) ∧
      lookupKey es2 "metadata" = none ∧
      ∀ k v, lookupKey witMeta k = some v →
        lookupKey es2 (RESERVED_PREFIX ++ k) = some v :=
  C1_metadata_merged .instanceLifecycle witMetaMsg witMetaPayload witMeta
    rfl rfl (by decide)

/-- C2: on the concrete scheduling message of the claim,
`InstanceScheduled`'s derivation yields exactly one DELTA sample named
"instance.scheduled", unit "instance", volume 1, null `user_id`,
`project_id` "p1" from the nested instance properties and `resource_id`
"i1" from the top-level payload. -/
theorem C2_instance_scheduled :
    instanceScheduled_get_sample witSchedMsg =
      .ok [⟨.str "instance.scheduled", TYPE_DELTA, .str "instance", .int 1,
            .vnull, .str "p1", .str "i1", witSchedMsg⟩] := rfl

/-- C5: when the instance properties lack the `metadata` key or hold a
non-mapping value there, the sanitisation step of `process_notification`
raises no error and leaves the message (hence the instance properties)
entirely unchanged. -/
theorem C5_malformed_metadata_noop (var : Variant) (m : Value)
    (es : List (String × Value))
    (hprops : getPath m (propsPath var) = .ok (.dict es))
    (hmd : ∀ md, lookupKey es "metadata" ≠ some (.dict md)) :
    sanitize_message var m = .ok m := by
  have hs : sanitize_instance_properties (.dict es) = .ok (.dict es) := by
    cases hm : lookupKey es "metadata" with
    | none => simp [sanitize_instance_properties, hm]
    | some v =>
      cases v with
      | dict md => exact absurd hm (hmd md)
      | vnull => simp [sanitize_instance_properties, hm]
      | bool b => simp [sanitize_instance_properties, hm]
      | int n => simp [sanitize_instance_properties, hm]
      | str s => simp [sanitize_instance_properties, hm]
      | list xs => simp [sanitize_instance_properties, hm]
  rw [sanitize_message_eq var m _ _ hprops hs, setPath_getPath_id _ _ _ hprops]

/-- Witness for C5: a payload whose `metadata` is a list (malformed). -/
theorem C5_malformed_metadata_noop_witness :
    sanitize_message .instanceLifecycle witBadMetaMsg = .ok witBadMetaMsg :=
  C5_malformed_metadata_noop .instanceLifecycle witBadMetaMsg witBadMetaPayload
    rfl (fun _ h => nomatch h)

/-- C6: sanitisation is idempotent: on any instance-properties mapping it
has already produced, running it again is a no-op (no error, same
mapping). -/
theorem C6_sanitize_idempotent (es : List (String × Value)) (q : Value)
    (h : sanitize_instance_properties (.dict es) = .ok q) :
    sanitize_instance_properties q = .ok q := by
  cases hm : lookupKey es "metadata" with
  | none =>
    simp only [sanitize_instance_properties, hm, Except.ok.injEq] at h
    subst h
    simp [sanitize_instance_properties, hm]
  | some v =>
    cases v with
    | dict md =>
      simp only [sanitize_instance_properties, hm, Except.ok.injEq] at h
      subst h
      have hnone : lookupKey
          (add_reserved_user_metadata md (eraseKey es "metadata"))
          "metadata" = none := by
        rw [lookupKey_add_reserved_of_ne _ _ _
          (fun kv _ => metadata_ne_reserved_append kv.1), lookupKey_eraseKey]
        simp
      simp [sanitize_instance_properties, hnone]
    | vnull =>
      simp only [sanitize_instance_properties, hm, Except.ok.injEq] at h
      subst h
      simp [sanitize_instance_properties, hm]
    | bool b =>
      simp only [sanitize_instance_properties, hm, Except.ok.injEq] at h
      subst h
      simp [sanitize_instance_properties, hm]
    | int n =>
      simp only [sanitize_instance_properties, hm, Except.ok.injEq] at h
      subst h
      simp [sanitize_instance_properties, hm]
    | str s =>
      simp only [sanitize_instance_properties, hm, Except.ok.injEq] at h
      subst h
      simp [sanitize_instance_properties, hm]
    | list xs =>
      simp only [sanitize_instance_properties, hm, Except.ok.injEq] at h
      subst h
      simp [sanitize_instance_properties, hm]

/-- Witness for C6: re-sanitising the sanitised form of `witMetaPayload`
is a no-op. -/
theorem C6_sanitize_idempotent_witness :
    sanitize_instance_properties (.dict witMetaSanitizedPayload) =
      .ok (.dict witMetaSanitizedPayload) :=
  C6_sanitize_idempotent witMetaPayload (.dict witMetaSanitizedPayload) rfl

end PankoNotif

namespace PankoNotif

/-- C7: the shared sanitisation step never raises on instance properties
that are a mapping (for any contents, metadata included); and for a
lifecycle message whose payload lacks the required `user_id`, the full
pipeline fails with exactly the `MissingField` condition for that key —
the failure arises in the derivation step and propagates uncaught. -/
theorem C7_missing_required_field :
    (∀ es, ∃ es2, sanitize_instance_properties (.dict es) = .ok (.dict es2)) ∧
    (∀ mes pes, lookupKey mes "payload" = some (.dict pes) →
      lookupKey pes "user_id" = none →
      process_notification .instanceLifecycle (.dict mes) =
        .error (.missingField "user_id")) := by
  constructor
  · exact sanitize_dict_ok
  · intro mes pes hp hu
    have hprops : getPath (.dict mes) (propsPath .instanceLifecycle) =
        .ok (.dict pes) := by
      simp [propsPath, getPath, index, hp]
    obtain ⟨pes2, hs⟩ := sanitize_dict_ok pes
    have hm2 : sanitize_message .instanceLifecycle (.dict mes) =
        .ok (setPath (.dict mes) (propsPath .instanceLifecycle) (.dict pes2)) :=
      sanitize_message_eq _ _ _ _ hprops hs
    have hu2 : lookupKey pes2 "user_id" = none := by
      rw [lookupKey_sanitize_short pes pes2 "user_id" hs
        user_id_ne_reserved_append (by decide)]
      exact hu
    have hsp : setPath (.dict mes) (propsPath .instanceLifecycle) (.dict pes2) =
        .dict (setKey mes "payload" (.dict pes2)) := by
      simp [propsPath, setPath, hp]
    have hlk : lookupKey (setKey mes "payload" (.dict pes2)) "payload" =
        some (.dict pes2) := by
      rw [lookupKey_setKey]
      simp
    have hg : get_sample .instanceLifecycle
        (.dict (setKey mes "payload" (.dict pes2))) =
        .error (.missingField "user_id") := by
      simp [get_sample, instanceLifecycle_get_sample, payloadField, index,
        hlk, hu2, ebind_error]
    simp [process_notification, hm2, hsp, hg]

/-- Witness for C7: the sanitiser succeeds on `witMetaPayload`, and the
pipeline on `witNoUserMsg` (payload lacking `user_id`) fails with
`MissingField "user_id"`. -/
theorem C7_missing_required_field_witness :
    (∃ es2, sanitize_instance_properties (.dict witMetaPayload) =
      .ok (.dict es2)) ∧
    process_notification .instanceLifecycle witNoUserMsg =
      .error (.missingField "user_id") :=
  ⟨C7_missing_required_field.1 witMetaPayload,
   C7_missing_required_field.2
     [("payload", .dict [("tenant_id", .str "t"),
        ("metadata", .dict [("a", .str "x")])])]
     [("tenant_id", .str "t"), ("metadata", .dict [("a", .str "x")])]
     rfl rfl⟩

/-- C8: whenever the full pipeline succeeds, the derivation step
contributed only the samples (they are exactly `get_sample` of the
post-sanitisation message, which is fixed before derivation); the
post-state message is the original with only the instance-properties
location replaced by its sanitised form; and every part of the message at
a key path diverging from the instance-properties path is unchanged. -/
theorem C8_pipeline_frame (var : Variant) (m m2 : Value)
    (samples : List Sample)
    (h : process_notification var m = .ok (m2, samples)) :
    get_sample var m2 = .ok samples ∧
    (∃ props props2, getPath m (propsPath var) = .ok props ∧
      sanitize_instance_properties props = .ok props2 ∧
      m2 = setPath m (propsPath var) props2) ∧
    ∀ q, diverges (propsPath var) q = true → getPath m2 q = getPath m q := by
  cases hs : sanitize_message var m with
  | error e => simp [process_notification, hs] at h
  | ok m3 =>
    cases hg : get_sample var m3 with
    | error e => simp [process_notification, hs, hg] at h
    | ok ss =>
      simp only [process_notification, hs, hg, Except.ok.injEq,
        Prod.mk.injEq] at h
      obtain ⟨rfl, rfl⟩ := h
      cases hp : getPath m (propsPath var) with
      | error e => simp [sanitize_message, get_instance_properties, hp] at hs
      | ok props =>
        cases hsan : sanitize_instance_properties props with
        | error e =>
          simp [sanitize_message, get_instance_properties, hp, hsan] at hs
        | ok props2 =>
          simp only [sanitize_message, get_instance_properties, hp, hsan,
            Except.ok.injEq] at hs
          refine ⟨hg, ⟨props, props2, rfl, hsan, hs.symm⟩, ?_⟩
          intro q hq
          rw [← hs]
          exact getPath_setPath_diverges _ _ _ _ hq

/-- Witness for C8: the pipeline on `witMetaMsg` succeeds with post-state
`witMetaMsg2` and samples `witMetaSamples`. -/
theorem C8_pipeline_frame_witness :
    get_sample .instanceLifecycle witMetaMsg2 = .ok witMetaSamples ∧
    (∃ props props2,
      getPath witMetaMsg (propsPath .instanceLifecycle) = .ok props ∧
      sanitize_instance_properties props = .ok props2 ∧
      witMetaMsg2 = setPath witMetaMsg (propsPath .instanceLifecycle) props2) ∧
    ∀ q, diverges (propsPath .instanceLifecycle) q = true →
      getPath witMetaMsg2 q = getPath witMetaMsg q :=
  C8_pipeline_frame .instanceLifecycle witMetaMsg witMetaMsg2 witMetaSamples rfl

end PankoNotif

namespace PankoNotif

/-- C3: `InstanceDelete`'s derivation yields the empty sequence on an
empty `payload.samples` list, and on a list of well-formed entries yields
exactly one sample per entry, with name/type/unit/volume verbatim from the
entry and all three ids from the top-level payload (see
`deleteSampleOfEntry`), never from the entry itself. -/
theorem C3_instance_delete_batch (mes pes : List (String × Value))
    (ss : List Value)
    (hp : lookupKey mes "payload" = some (.dict pes))
    (hs : lookupKey pes "samples" = some (.list ss)) :
    (ss = [] → instanceDelete_get_sample (.dict mes) = .ok []) ∧
    (∀ u t i, lookupKey pes "user_id" = some u →
      lookupKey pes "tenant_id" = some t →
      lookupKey pes "instance_id" = some i →
      (∀ s ∈ ss, (entryFields s).isSome) →
      instanceDelete_get_sample (.dict mes) =
        .ok (ss.map (deleteSampleOfEntry (.dict mes) u t i))) := by
  have hmain : instanceDelete_get_sample (.dict mes) =
      instanceDelete_loop (.dict mes) (.dict pes) ss := by
    simp [instanceDelete_get_sample, index, hp, ebind_ok, dictGet, hs]
  constructor
  · rintro rfl
    simp [hmain, instanceDelete_loop]
  · intro u t i hu ht hi hwf
    rw [hmain]
    exact instanceDelete_loop_eq_map (.dict mes) pes u t i hu ht hi ss hwf

/-- Witness for C3: the empty batch yields no samples; the two-entry batch
`witDelEntries` yields two samples with entry fields verbatim and ids from
the top-level payload (the second entry's own `user_id` is ignored). -/
theorem C3_instance_delete_batch_witness :
    instanceDelete_get_sample witDelEmptyMsg = .ok [] ∧
    instanceDelete_get_sample witDelMsg =
      .ok [⟨.str "cpu", .str "cumulative", .str "ns", .int 99,
            .str "u", .str "t", .str "i", witDelMsg⟩,
           ⟨.str "memory", .str "gauge", .str "MB", .int 512,
            .str "u", .str "t", .str "i", witDelMsg⟩] :=
  ⟨(C3_instance_delete_batch [("payload", .dict [("samples", .list [])])]
      [("samples", .list [])] [] rfl rfl).1 rfl,
   (C3_instance_delete_batch [("payload", .dict witDelPayload)]
      witDelPayload witDelEntries rfl rfl).2
      (.str "u") (.str "t") (.str "i") rfl rfl rfl (by decide)⟩

/-- C4: `InstanceFlavor`'s derivation yields the empty sequence (no error)
when the payload lacks `instance_type` or holds a falsy value there; and
with `instance_type = "m1.small"` and the id fields present it yields
exactly one GAUGE sample named "instance:m1.small", unit "instance",
volume 1. -/
theorem C4_instance_flavor (mes pes : List (String × Value))
    (hp : lookupKey mes "payload" = some (.dict pes)) :
    ((lookupKey pes "instance_type" = none ∨
        ∃ v, lookupKey pes "instance_type" = some v ∧ truthy v = false) →
      instanceFlavor_get_sample (.dict mes) = .ok []) ∧
    (∀ u t i, lookupKey pes "instance_type" = some (.str "m1.small") →
      lookupKey pes "user_id" = some u →
      lookupKey pes "tenant_id" = some t →
      lookupKey pes "instance_id" = some i →
      instanceFlavor_get_sample (.dict mes) =
        .ok [⟨.str "instance:m1.small", TYPE_GAUGE, .str "instance", .int 1,
              u, t, i, .dict mes⟩]) := by
  constructor
  · rintro (hnone | ⟨v, hv, hf⟩)
    · simp [instanceFlavor_get_sample, dictGet, hp, ebind_ok, hnone, truthy]
    · simp [instanceFlavor_get_sample, dictGet, hp, ebind_ok, hv, hf]
  · intro u t i hit hu ht hi
    have htr : truthy (.str "m1.small") = true := rfl
    simp only [instanceFlavor_get_sample, dictGet, hp, Option.getD_some,
      ebind_ok, hit, htr, if_true, payloadField, index, hu, ht, hi]
    rfl

/-- Witness for C4: a payload without `instance_type` yields nothing; the
payload `witFlavorPayload` yields the single interpolated-name sample. -/
theorem C4_instance_flavor_witness :
    instanceFlavor_get_sample (.dict [("payload", .dict [("vcpus", .int 2)])]) =
      .ok [] ∧
    instanceFlavor_get_sample witFlavorMsg =
      .ok [⟨.str "instance:m1.small", TYPE_GAUGE, .str "instance", .int 1,
            .str "u", .str "t", .str "i", witFlavorMsg⟩] :=
  ⟨(C4_instance_flavor [("payload", .dict [("vcpus", .int 2)])]
      [("vcpus", .int 2)] rfl).1 (Or.inl rfl),
   (C4_instance_flavor [("payload", .dict witFlavorPayload)]
      witFlavorPayload rfl).2 (.str "u") (.str "t") (.str "i")
      rfl rfl rfl rfl⟩

/-- C9: when the payload lacks the `samples` key entirely,
`InstanceDelete`'s derivation yields the empty sequence (the lookup
defaults to an empty list), and no top-level id field is required. -/
theorem C9_delete_missing_samples_key (mes pes : List (String × Value))
    (hp : lookupKey mes "payload" = some (.dict pes))
    (hs : lookupKey pes "samples" = none) :
    instanceDelete_get_sample (.dict mes) = .ok [] := by
  simp [instanceDelete_get_sample, index, hp, ebind_ok, dictGet, hs,
    instanceDelete_loop]

/-- Witness for C9: a payload with neither `samples` nor any id field. -/
theorem C9_delete_missing_samples_key_witness :
    instanceDelete_get_sample
      (.dict [("payload", .dict [("other", .int 1)])]) = .ok [] :=
  C9_delete_missing_samples_key [("payload", .dict [("other", .int 1)])]
    [("other", .int 1)] rfl rfl

/-- C10: on a message lacking `payload` entirely, `InstanceFlavor`'s
derivation step on its own yields the empty sequence (the lookup defaults
through an empty mapping), while the shared pipeline entry point fails
earlier, with `MissingField "payload"`, when it retrieves the instance
properties. -/
theorem C10_flavor_payload_missing (mes : List (String × Value))
    (hp : lookupKey mes "payload" = none) :
    instanceFlavor_get_sample (.dict mes) = .ok [] ∧
    process_notification .instanceFlavor (.dict mes) =
      .error (.missingField "payload") := by
  constructor
  · simp [instanceFlavor_get_sample, dictGet, hp, ebind_ok, lookupKey, truthy]
  · have hgp : getPath (.dict mes) (propsPath .instanceFlavor) =
        .error (.missingField "payload") := by
      simp [propsPath, getPath, index, hp]
    simp [process_notification, sanitize_message, get_instance_properties, hgp]

/-- Witness for C10: a message holding only an `event_type`. -/
theorem C10_flavor_payload_missing_witness :
    instanceFlavor_get_sample (.dict [("event_type", .str "e")]) = .ok [] ∧
    process_notification .instanceFlavor (.dict [("event_type", .str "e")]) =
      .error (.missingField "payload") :=
  C10_flavor_payload_missing [("event_type", .str "e")] rfl

end PankoNotif
